import Mathlib

/-!
Verification development for the Gridrr dashboard core: blob naming and
video upload, catalog persistence (create / list / delete over the
`websites` collection), storage-usage aggregation, and the submission
handler that orchestrates them.  The definitions below are shallow
embeddings of the TypeScript source; outcomes of the backing services
(blob upload, document-store insert / query / delete) are passed in
explicitly, and the calls made against those services are recorded so
that call-absence properties can be stated.
-/

namespace Dashboard

/-- A JavaScript `Error` value, identified by its message. -/
inductive JsError where
  | mk (message : String) : JsError
deriving DecidableEq

instance {ε α : Type} [DecidableEq ε] [DecidableEq α] : DecidableEq (Except ε α) := fun x y =>
  match x, y with
  | .ok a, .ok b => if h : a = b then isTrue (by rw [h]) else isFalse (by simp [h])
  | .error a, .error b => if h : a = b then isTrue (by rw [h]) else isFalse (by simp [h])
  | .ok _, .error _ => isFalse (by simp)
  | .error _, .ok _ => isFalse (by simp)

/-! ## Blob Namer: `uploadVideo` -/

/-- Characters kept unchanged by the sanitizer regex `[^\w\d.-]` in
`uploadVideo`: word characters (`A-Z`, `a-z`, `0-9`, `_`), digits, `.`
and `-`. -/
def allowedChar (c : Char) : Bool :=
  (c.isAlpha || c.isDigit || c = '_') || c.isDigit || c = '.' || c = '-'

/-- Per-character action of `file.name.replace(/[^\w\d.-]/g, '_')`. -/
def sanitizeChar (c : Char) : Char :=
  if allowedChar c then c else '_'

/-- Model of `cleanFileName` inside `uploadVideo`: replace every
character outside the class with `_`. -/
def cleanFileName (s : String) : String :=
  ⟨s.data.map sanitizeChar⟩

/-- Calls made against the blob store (Firebase Storage). -/
inductive StorageOp where
  | putObject (path : String) : StorageOp
  | getDownloadUrl (path : String) : StorageOp
  | listFolder (path : String) : StorageOp
deriving DecidableEq

/-- Is this blob-store call a use of the provider download-URL accessor? -/
def StorageOp.isGetDownloadUrl : StorageOp → Bool
  | .getDownloadUrl _ => true
  | _ => false

/-- The storage key `videos/{videoId}_{cleanFileName}` built by
`uploadVideo`. -/
def storagePathOf (videoId fileName : String) : String :=
  "videos/" ++ videoId ++ "_" ++ cleanFileName fileName

/-- Outcome of `uploadVideo`: the returned CDN URL (or the wrapped
error), together with the blob-store calls performed. -/
structure UploadResult where
  result : Except JsError String
  ops : List StorageOp
deriving DecidableEq

/-- Model of `uploadVideo` from the API module.  `videoId` stands for the
value of `crypto.randomUUID()`; `uploadOk` is whether `uploadBytes`
succeeds.  On success the public URL is constructed by string
substitution (`https://cdn.gridrr.com/` in front of the storage path);
on failure the error is wrapped as `Error('Failed to upload video')`.
`getDownloadURL` is never invoked. -/
def uploadVideo (uploadOk : Bool) (videoId fileName : String) : UploadResult :=
  let storagePath := "videos/" ++ videoId ++ "_" ++ cleanFileName fileName
  if uploadOk then
    { result := Except.ok ("https://cdn.gridrr.com/videos/" ++ videoId ++ "_" ++ cleanFileName fileName)
      ops := [StorageOp.putObject storagePath] }
  else
    { result := Except.error (JsError.mk "Failed to upload video")
      ops := [StorageOp.putObject storagePath] }

/-! ## Catalog Store: documents of the `websites` collection -/

/-- The document data stored in the `websites` collection.  `idField`
models a (normally absent) `id` field inside the document data itself,
which the spread `{ id: doc.id, ...doc.data() }` in `getWebsites` would
let override the document identifier. -/
structure WebsiteDoc where
  idField : Option String
  name : String
  url : String
  categories : List String
  twitter : Option String
  instagram : Option String
  builtWith : String
  otherTechnologies : Option String
  videoUrl : Option String
  uploadedAt : Nat
deriving DecidableEq

/-- The caller-supplied document data for `saveWebsite`
(`Omit<WebsiteData, 'id' | 'uploadedAt'>`). -/
structure WebsiteInput where
  name : String
  url : String
  categories : List String
  twitter : Option String
  instagram : Option String
  builtWith : String
  otherTechnologies : Option String
  videoUrl : Option String
deriving DecidableEq

/-- The document written by `saveWebsite`: the input data plus
`uploadedAt`, and nothing else (in particular no `id` field). -/
def inputToDoc (now : Nat) (w : WebsiteInput) : WebsiteDoc :=
  { idField := none
    name := w.name
    url := w.url
    categories := w.categories
    twitter := w.twitter
    instagram := w.instagram
    builtWith := w.builtWith
    otherTechnologies := w.otherTechnologies
    videoUrl := w.videoUrl
    uploadedAt := now }

/-- A catalog entry as returned by `getWebsites`. -/
structure WebsiteEntry where
  id : String
  name : String
  url : String
  categories : List String
  twitter : Option String
  instagram : Option String
  builtWith : String
  otherTechnologies : Option String
  videoUrl : Option String
  uploadedAt : Nat
deriving DecidableEq

/-- The per-document mapping `doc => ({ id: doc.id, ...doc.data() })` in
`getWebsites`.  Because the data is spread after `id`, an `id` field
inside the data would override the document identifier. -/
def docToEntry (p : String × WebsiteDoc) : WebsiteEntry :=
  { id := p.2.idField.getD p.1
    name := p.2.name
    url := p.2.url
    categories := p.2.categories
    twitter := p.2.twitter
    instagram := p.2.instagram
    builtWith := p.2.builtWith
    otherTechnologies := p.2.otherTechnologies
    videoUrl := p.2.videoUrl
    uploadedAt := p.2.uploadedAt }

/-- Ordering requested by `query(..., orderBy('uploadedAt', 'desc'))`. -/
def byUploadedAtDesc (a b : String × WebsiteDoc) : Prop :=
  b.2.uploadedAt ≤ a.2.uploadedAt

instance : DecidableRel byUploadedAtDesc :=
  fun a b => Nat.decLe b.2.uploadedAt a.2.uploadedAt

instance : IsTotal (String × WebsiteDoc) byUploadedAtDesc :=
  ⟨fun a b => Nat.le_total b.2.uploadedAt a.2.uploadedAt⟩

instance : IsTrans (String × WebsiteDoc) byUploadedAtDesc :=
  ⟨fun _ _ _ hab hbc => Nat.le_trans hbc hab⟩

/-- The document store's answer to the descending `uploadedAt` query: a
stable sort of the stored documents, most recent first, ties kept in
insertion order. -/
def orderByUploadedAtDesc (docs : List (String × WebsiteDoc)) : List (String × WebsiteDoc) :=
  List.insertionSort byUploadedAtDesc docs

/-- Calls made against the document store (Firestore). -/
inductive StoreCall where
  | addDoc : StoreCall
  | getDocsQuery : StoreCall
  | deleteDocById (id : String) : StoreCall
deriving DecidableEq

/-- JavaScript truthiness of an environment variable read through
`import.meta.env`: present and non-empty. -/
def truthyEnv : Option String → Bool
  | some s => s != ""
  | none => false

/-- The error thrown by `saveWebsite` when the configuration check
fails. -/
def configMissingError : JsError :=
  JsError.mk "Firebase configuration is missing. Please check your .env file."

/-- Outcome of `saveWebsite`: the returned id (or error), the resulting
collection contents, and the document-store calls performed. -/
structure SaveResult where
  result : Except JsError String
  docs : List (String × WebsiteDoc)
  calls : List StoreCall
deriving DecidableEq

/-- Model of `saveWebsite`.  `apiKey` / `projectId` are the two checked
environment variables, `insertErr` the failure (if any) of the `addDoc`
call, `newId` the store-assigned identifier and `now` the value of
`Timestamp.now()`.  An underlying insert error is rethrown verbatim
(`throw error`). -/
def saveWebsite (apiKey projectId : Option String) (insertErr : Option JsError)
    (newId : String) (now : Nat) (w : WebsiteInput)
    (docs : List (String × WebsiteDoc)) : SaveResult :=
  if !truthyEnv apiKey || !truthyEnv projectId then
    { result := Except.error configMissingError, docs := docs, calls := [] }
  else
    match insertErr with
    | some e => { result := Except.error e, docs := docs, calls := [StoreCall.addDoc] }
    | none =>
      { result := Except.ok newId
        docs := docs ++ [(newId, inputToDoc now w)]
        calls := [StoreCall.addDoc] }

/-- Outcome of `getWebsites`. -/
structure ListResult where
  result : Except JsError (List WebsiteEntry)
  calls : List StoreCall
deriving DecidableEq

/-- Model of `getWebsites`: one descending-ordered query; a read error
is replaced by `new Error('Failed to fetch websites')`. -/
def getWebsites (readErr : Option JsError) (docs : List (String × WebsiteDoc)) : ListResult :=
  match readErr with
  | some _ =>
    { result := Except.error (JsError.mk "Failed to fetch websites")
      calls := [StoreCall.getDocsQuery] }
  | none =>
    { result := Except.ok ((orderByUploadedAtDesc docs).map docToEntry)
      calls := [StoreCall.getDocsQuery] }

/-- The entry list produced by a successful `getWebsites`. -/
def listedEntries (docs : List (String × WebsiteDoc)) : List WebsiteEntry :=
  (orderByUploadedAtDesc docs).map docToEntry

/-- Outcome of `deleteWebsite`. -/
structure DeleteResult where
  result : Except JsError Unit
  docs : List (String × WebsiteDoc)
  calls : List StoreCall
deriving DecidableEq

/-- Model of `deleteWebsite`: one `deleteDoc` call removing the document
with the given identifier (a no-op when absent, mirroring Firestore
delete semantics); a transport error is replaced by
`new Error('Failed to delete website')`. -/
def deleteWebsite (deleteErr : Option JsError) (websiteId : String)
    (docs : List (String × WebsiteDoc)) : DeleteResult :=
  match deleteErr with
  | some _ =>
    { result := Except.error (JsError.mk "Failed to delete website")
      docs := docs
      calls := [StoreCall.deleteDocById websiteId] }
  | none =>
    { result := Except.ok ()
      docs := docs.filter (fun d => d.1 != websiteId)
      calls := [StoreCall.deleteDocById websiteId] }

/-! ## Usage Aggregator: `getStorageUsage` -/

/-- The fixed per-object size estimate (1 MiB) used instead of real
metadata. -/
def estimatedSize : Nat := 1024 * 1024

/-- Per-folder statistics recorded in the report. -/
structure FolderStat where
  count : Nat
  size : Nat
deriving DecidableEq

/-- Assignment `folderStats[folder] = v` on a JavaScript object modelled
as an insertion-ordered association list: overwrite in place if the key
exists, append otherwise. -/
def setStat : List (String × FolderStat) → String → FolderStat → List (String × FolderStat)
  | [], k, v => [(k, v)]
  | (k', v') :: rest, k, v =>
    if k' = k then (k, v) :: rest else (k', v') :: setStat rest k v

/-- Lookup `folderStats[folder]`. -/
def getStat : List (String × FolderStat) → String → Option FolderStat
  | [], _ => none
  | (k, v) :: rest, f => if k = f then some v else getStat rest f

/-- The aggregate report returned by `getStorageUsage`; also serves as
the accumulator of its folder loop. -/
structure StorageUsageReport where
  fileCount : Nat
  totalSize : Nat
  folderStats : List (String × FolderStat)
deriving DecidableEq

/-- One iteration of the folder loop in `getStorageUsage`: list the
folder, add 1 MiB per listed object, record the per-folder stats; on a
listing error record `{count: 0, size: 0}` and continue. -/
def usageStep (listObjects : String → Except JsError (List String))
    (acc : StorageUsageReport) (folder : String) : StorageUsageReport :=
  match listObjects folder with
  | Except.ok items =>
    let folderSize := items.foldl (fun sz _ => sz + estimatedSize) 0
    { fileCount := acc.fileCount + items.length
      totalSize := acc.totalSize + folderSize
      folderStats := setStat acc.folderStats folder { count := items.length, size := folderSize } }
  | Except.error _ =>
    { fileCount := acc.fileCount
      totalSize := acc.totalSize
      folderStats := setStat acc.folderStats folder { count := 0, size := 0 } }

/-- The folder walk of `getStorageUsage`, generalized over the folder
sequence (the spec's `computeUsage(folderNames)`). -/
def computeUsage (listObjects : String → Except JsError (List String))
    (folderNames : List String) : StorageUsageReport :=
  folderNames.foldl (usageStep listObjects) { fileCount := 0, totalSize := 0, folderStats := [] }

/-- Model of `getStorageUsage`: the folder walk over the two hard-coded
folders. -/
def getStorageUsage (listObjects : String → Except JsError (List String)) : StorageUsageReport :=
  computeUsage listObjects ["videos/", "websites/"]

/-- The contribution of one folder to the report: its object count and
count × 1 MiB on success, zero on listing failure. -/
def folderContrib (listObjects : String → Except JsError (List String))
    (folder : String) : FolderStat :=
  match listObjects folder with
  | Except.ok items => { count := items.length, size := items.length * estimatedSize }
  | Except.error _ => { count := 0, size := 0 }

/-! ## Ingestion Orchestrator: `handleSubmit` -/

/-- The submission form state. -/
structure FormData where
  name : String
  url : String
  categories : String
  twitter : String
  instagram : String
  builtWith : String
  otherTechnologies : String
deriving DecidableEq

/-- Model of JavaScript `String.prototype.split(',')`, accumulating the
current segment in reverse. -/
def splitCommaAux : List Char → List Char → List String
  | [], cur => [String.mk cur.reverse]
  | c :: rest, cur =>
    if c = ',' then String.mk cur.reverse :: splitCommaAux rest []
    else splitCommaAux rest (c :: cur)

/-- JavaScript `s.split(',')`. -/
def splitComma (s : String) : List String :=
  splitCommaAux s.data []

/-- Whitespace removed by JavaScript `String.prototype.trim` (ASCII
subset). -/
def isJsSpace (c : Char) : Bool :=
  c = ' ' || c = '\t' || c = '\n' || c = '\r' || c = '\x0b' || c = '\x0c'

/-- JavaScript `s.trim()`. -/
def trimChars (s : String) : String :=
  String.mk (((s.data.dropWhile isJsSpace).reverse.dropWhile isJsSpace).reverse)

/-- The `websiteData` object literal assembled in `handleSubmit`:
categories split on commas, trimmed and emptied of blank segments;
social handles expanded to profile URLs only when truthy; optional
fields spread in only when truthy. -/
def assembleWebsiteData (form : FormData) (videoUrl : Option String) : WebsiteInput :=
  { name := form.name
    url := form.url
    categories := ((splitComma form.categories).map trimChars).filter (fun c => decide (0 < c.length))
    twitter := if form.twitter != "" then some ("https://twitter.com/" ++ form.twitter) else none
    instagram := if form.instagram != "" then some ("https://instagram.com/" ++ form.instagram) else none
    builtWith := form.builtWith
    otherTechnologies := if form.otherTechnologies != "" then some form.otherTechnologies else none
    videoUrl :=
      match videoUrl with
      | some u => if u != "" then some u else none
      | none => none }

/-- Outcome of `handleSubmit`: the status message set, the resulting
collection contents, and the blob-store / document-store calls
performed. -/
structure SubmitResult where
  message : Option String
  docs : List (String × WebsiteDoc)
  blobOps : List StorageOp
  storeCalls : List StoreCall
deriving DecidableEq

/-- Model of `handleSubmit`: check the configuration, optionally upload
the video (aborting on failure before any catalog write), assemble the
entry and persist it via `saveWebsite`. -/
def handleSubmit (apiKey projectId : Option String) (videoFile : Option String)
    (videoId : String) (uploadOk : Bool) (insertErr : Option JsError)
    (newId : String) (now : Nat) (form : FormData)
    (docs : List (String × WebsiteDoc)) : SubmitResult :=
  if !truthyEnv apiKey || !truthyEnv projectId then
    { message := some "Firebase configuration is missing. Please check your .env file with your Firebase project settings."
      docs := docs, blobOps := [], storeCalls := [] }
  else
    match videoFile with
    | some fileName =>
      let up := uploadVideo uploadOk videoId fileName
      match up.result with
      | Except.error _ =>
        { message := some "Failed to upload video. Please try again."
          docs := docs, blobOps := up.ops, storeCalls := [] }
      | Except.ok url =>
        let sv := saveWebsite apiKey projectId insertErr newId now
          (assembleWebsiteData form (some url)) docs
        match sv.result with
        | Except.error _ =>
          { message := some "Error saving website. Please try again."
            docs := sv.docs, blobOps := up.ops, storeCalls := sv.calls }
        | Except.ok _ =>
          { message := some "Website saved successfully!"
            docs := sv.docs, blobOps := up.ops, storeCalls := sv.calls }
    | none =>
      let sv := saveWebsite apiKey projectId insertErr newId now
        (assembleWebsiteData form none) docs
      match sv.result with
      | Except.error _ =>
        { message := some "Error saving website. Please try again."
          docs := sv.docs, blobOps := [], storeCalls := sv.calls }
      | Except.ok _ =>
        { message := some "Website saved successfully!"
          docs := sv.docs, blobOps := [], storeCalls := sv.calls }

/-! ## Sample data used by witnesses -/

/-- A sample stored document with the given name and timestamp. -/
def sampleDoc (nm : String) (t : Nat) : WebsiteDoc :=
  { idField := none
    name := nm
    url := "https://example.com"
    categories := []
    twitter := none
    instagram := none
    builtWith := ""
    otherTechnologies := none
    videoUrl := none
    uploadedAt := t }

/-- A sample form state. -/
def sampleForm : FormData :=
  { name := "Site"
    url := "https://example.com"
    categories := "portfolio, , blog ,"
    twitter := "alice"
    instagram := ""
    builtWith := "React"
    otherTechnologies := "" }

/-- A sample blob-store lister: `videos/` holds three objects, every
other folder fails to list. -/
def sampleListObjects : String → Except JsError (List String) :=
  fun folder =>
    if folder = "videos/" then Except.ok ["v1", "v2", "v3"]
    else Except.error (JsError.mk "listing failed")

/-! ## Helper lemmas -/

theorem allowedChar_sanitizeChar (c : Char) : allowedChar (sanitizeChar c) = true := by
  unfold sanitizeChar
  by_cases h : allowedChar c = true
  · rw [if_pos h]; exact h
  · rw [if_neg h]; decide

theorem foldl_const_add (l : List String) (n : Nat) :
    l.foldl (fun sz _ => sz + estimatedSize) n = n + l.length * estimatedSize := by
  induction l generalizing n with
  | nil => simp
  | cons x xs ih =>
    simp only [List.foldl_cons, List.length_cons, ih]
    ring

theorem usageStep_folderStats (L : String → Except JsError (List String))
    (acc : StorageUsageReport) (f : String) :
    (usageStep L acc f).folderStats = setStat acc.folderStats f (folderContrib L f) := by
  cases h : L f <;> simp [usageStep, folderContrib, h, foldl_const_add]

theorem usageStep_fileCount (L : String → Except JsError (List String))
    (acc : StorageUsageReport) (f : String) :
    (usageStep L acc f).fileCount = acc.fileCount + (folderContrib L f).count := by
  cases h : L f <;> simp [usageStep, folderContrib, h]

theorem usageStep_totalSize (L : String → Except JsError (List String))
    (acc : StorageUsageReport) (f : String) :
    (usageStep L acc f).totalSize = acc.totalSize + (folderContrib L f).size := by
  cases h : L f <;> simp [usageStep, folderContrib, h, foldl_const_add]

theorem foldl_usage_totals (L : String → Except JsError (List String))
    (folders : List String) (acc : StorageUsageReport) :
    (folders.foldl (usageStep L) acc).fileCount =
      acc.fileCount + ((folders.map fun g => (folderContrib L g).count).sum) ∧
    (folders.foldl (usageStep L) acc).totalSize =
      acc.totalSize + ((folders.map fun g => (folderContrib L g).size).sum) := by
  induction folders generalizing acc with
  | nil => simp
  | cons g gs ih =>
    obtain ⟨h1, h2⟩ := ih (usageStep L acc g)
    simp only [List.foldl_cons, List.map_cons, List.sum_cons, h1, h2,
      usageStep_fileCount, usageStep_totalSize]
    omega

theorem getStat_setStat_self (m : List (String × FolderStat)) (k : String) (v : FolderStat) :
    getStat (setStat m k v) k = some v := by
  induction m with
  | nil => simp [setStat, getStat]
  | cons p rest ih =>
    by_cases h : p.1 = k <;> simp [setStat, getStat, h, ih]

theorem getStat_setStat_ne (m : List (String × FolderStat)) (k : String) (v : FolderStat)
    (k' : String) (h : k' ≠ k) :
    getStat (setStat m k v) k' = getStat m k' := by
  have hk : ¬(k = k') := fun hh => h hh.symm
  induction m with
  | nil => simp only [setStat, getStat, if_neg hk]
  | cons p rest ih =>
    obtain ⟨k0, v0⟩ := p
    by_cases hp : k0 = k
    · subst hp
      simp only [setStat, if_pos rfl, getStat, if_neg hk]
    · simp only [setStat, if_neg hp, getStat, ih]

theorem getStat_foldl_of_not_mem (L : String → Except JsError (List String))
    (folders : List String) (acc : StorageUsageReport) (f : String) (h : f ∉ folders) :
    getStat (folders.foldl (usageStep L) acc).folderStats f = getStat acc.folderStats f := by
  induction folders generalizing acc with
  | nil => rfl
  | cons g gs ih =>
    simp only [List.mem_cons, not_or] at h
    simp only [List.foldl_cons]
    rw [ih _ h.2, usageStep_folderStats, getStat_setStat_ne _ _ _ _ h.1]

theorem getStat_foldl_of_mem (L : String → Except JsError (List String))
    (folders : List String) (acc : StorageUsageReport) (f : String) (h : f ∈ folders) :
    getStat (folders.foldl (usageStep L) acc).folderStats f = some (folderContrib L f) := by
  induction folders generalizing acc with
  | nil => exact absurd h (List.not_mem_nil f)
  | cons g gs ih =>
    simp only [List.foldl_cons]
    by_cases hf : f ∈ gs
    · exact ih _ hf
    · have hg : f = g := by
        rcases List.mem_cons.mp h with hh | hh
        · exact hh
        · exact absurd hh hf
      subst hg
      rw [getStat_foldl_of_not_mem _ _ _ _ hf, usageStep_folderStats, getStat_setStat_self]

theorem cdn_path_split (videoId c : String) :
    "https://cdn.gridrr.com/videos/" ++ videoId ++ "_" ++ c =
      "https://cdn.gridrr.com/" ++ ("videos/" ++ videoId ++ "_" ++ c) := by
  have h : ("https://cdn.gridrr.com/videos/" : String) =
      "https://cdn.gridrr.com/" ++ "videos/" := by decide
  rw [h]
  simp only [String.append_assoc]

/-! ## Claim theorems -/

/-- C1: when a video is attached and its upload fails, `handleSubmit`
makes no document-store call, leaves the catalog unchanged, and ends in
the failed state (the upload-failure message), so no catalog entry is
ever persisted for that submission. -/
theorem handleSubmit_uploadFailure_no_catalog_write
    (apiKey projectId : Option String)
    (hA : truthyEnv apiKey = true) (hP : truthyEnv projectId = true)
    (fileName videoId newId : String) (insertErr : Option JsError) (now : Nat)
    (form : FormData) (docs : List (String × WebsiteDoc)) :
    (handleSubmit apiKey projectId (some fileName) videoId false insertErr newId now form docs).storeCalls = [] ∧
    (handleSubmit apiKey projectId (some fileName) videoId false insertErr newId now form docs).docs = docs ∧
    (handleSubmit apiKey projectId (some fileName) videoId false insertErr newId now form docs).message =
      some "Failed to upload video. Please try again." := by
  simp only [handleSubmit, hA, hP, Bool.not_true, Bool.or_self, Bool.false_eq_true, if_false,
    uploadVideo]
  exact ⟨trivial, trivial, trivial⟩

theorem handleSubmit_uploadFailure_no_catalog_write_witness :
    truthyEnv (some "key") = true ∧ truthyEnv (some "proj") = true ∧
    ((handleSubmit (some "key") (some "proj") (some "a b.mp4") "vid1" false none "id1" 5 sampleForm []).storeCalls = [] ∧
     (handleSubmit (some "key") (some "proj") (some "a b.mp4") "vid1" false none "id1" 5 sampleForm []).docs = [] ∧
     (handleSubmit (some "key") (some "proj") (some "a b.mp4") "vid1" false none "id1" 5 sampleForm []).message =
       some "Failed to upload video. Please try again.") :=
  ⟨by decide, by decide,
    handleSubmit_uploadFailure_no_catalog_write (some "key") (some "proj")
      (by decide) (by decide) "a b.mp4" "vid1" "id1" none 5 sampleForm []⟩

/-- C2: over any ordered folder sequence, each successfully listed
folder contributes its object count and count × 1 MiB, each failed
folder contributes zero without aborting the walk, the report totals are
the sums of the per-folder contributions, and a folder's recorded entry
depends only on its own listing outcome; `getStorageUsage` is this walk
over the two hard-coded folders. -/
theorem computeUsage_per_folder_isolation
    (L : String → Except JsError (List String)) (folders : List String)
    (f : String) (hf : f ∈ folders) :
    (computeUsage L folders).fileCount = ((folders.map fun g => (folderContrib L g).count).sum) ∧
    (computeUsage L folders).totalSize = ((folders.map fun g => (folderContrib L g).size).sum) ∧
    (folderContrib L f).size = (folderContrib L f).count * estimatedSize ∧
    getStat (computeUsage L folders).folderStats f = some (folderContrib L f) ∧
    getStorageUsage L = computeUsage L ["videos/", "websites/"] := by
  obtain ⟨h1, h2⟩ := foldl_usage_totals L folders { fileCount := 0, totalSize := 0, folderStats := [] }
  refine ⟨by simpa [computeUsage] using h1, by simpa [computeUsage] using h2, ?_, ?_, rfl⟩
  · cases h : L f <;> simp [folderContrib, h]
  · exact getStat_foldl_of_mem L folders _ f hf

theorem computeUsage_per_folder_isolation_witness :
    "websites/" ∈ ["videos/", "websites/"] ∧
    ((computeUsage sampleListObjects ["videos/", "websites/"]).fileCount =
        ((["videos/", "websites/"].map fun g => (folderContrib sampleListObjects g).count).sum) ∧
     (computeUsage sampleListObjects ["videos/", "websites/"]).totalSize =
        ((["videos/", "websites/"].map fun g => (folderContrib sampleListObjects g).size).sum) ∧
     (folderContrib sampleListObjects "websites/").size =
        (folderContrib sampleListObjects "websites/").count * estimatedSize ∧
     getStat (computeUsage sampleListObjects ["videos/", "websites/"]).folderStats "websites/" =
        some (folderContrib sampleListObjects "websites/") ∧
     getStorageUsage sampleListObjects = computeUsage sampleListObjects ["videos/", "websites/"]) :=
  ⟨by decide,
    computeUsage_per_folder_isolation sampleListObjects ["videos/", "websites/"] "websites/" (by decide)⟩

/-- C3: a successful `getWebsites` returns all entries (a permutation of
the stored documents' entries) ordered by `uploadedAt` descending, and
on the concrete catalog with timestamps 1 < 2 < 3 the listing order is
[3, 2, 1]. -/
theorem getWebsites_sorted_desc (docs : List (String × WebsiteDoc)) :
    (getWebsites none docs).result = Except.ok (listedEntries docs) ∧
    List.Pairwise (fun a b : WebsiteEntry => b.uploadedAt ≤ a.uploadedAt) (listedEntries docs) ∧
    (listedEntries docs).Perm (docs.map docToEntry) ∧
    listedEntries [("a", sampleDoc "A" 1), ("b", sampleDoc "B" 2), ("c", sampleDoc "C" 3)] =
      [docToEntry ("c", sampleDoc "C" 3), docToEntry ("b", sampleDoc "B" 2),
       docToEntry ("a", sampleDoc "A" 1)] := by
  refine ⟨rfl, ?_, ?_, by decide⟩
  · exact List.Pairwise.map docToEntry (fun a b h => h)
      (List.sorted_insertionSort byUploadedAtDesc docs)
  · exact (List.perm_insertionSort byUploadedAtDesc docs).map docToEntry

/-- C4: a successful `uploadVideo` returns a CDN URL equal to the fixed
CDN host followed by exactly the blob storage key
`videos/{token}_{sanitizedName}`, performs exactly the one blob write
under that key, and never calls the provider's download-URL accessor. -/
theorem uploadVideo_cdn_url_matches_key (videoId fileName : String) :
    (uploadVideo true videoId fileName).result =
      Except.ok ("https://cdn.gridrr.com/" ++ storagePathOf videoId fileName) ∧
    (uploadVideo true videoId fileName).ops =
      [StorageOp.putObject (storagePathOf videoId fileName)] ∧
    (∀ b : Bool,
      ((uploadVideo b videoId fileName).ops.all fun op => !op.isGetDownloadUrl) = true) := by
  refine ⟨?_, rfl, ?_⟩
  · simp only [uploadVideo, if_true, storagePathOf, cdn_path_split]
  · intro b
    cases b <;> simp [uploadVideo, StorageOp.isGetDownloadUrl]

/-- C5: sanitization maps each character outside `[A-Za-z0-9._-]` to `_`
and keeps every other character, preserving length; every output
character lies in the class, and `"My Video (1).mp4"` maps to
`"My_Video__1_.mp4"`. -/
theorem cleanFileName_sanitization (s : String) :
    (cleanFileName s).length = s.length ∧
    (cleanFileName s).data = s.data.map sanitizeChar ∧
    (∀ c : Char, sanitizeChar c = if allowedChar c then c else '_') ∧
    ((cleanFileName s).data.all allowedChar) = true ∧
    cleanFileName "My Video (1).mp4" = "My_Video__1_.mp4" := by
  refine ⟨?_, rfl, fun c => rfl, ?_, by decide⟩
  · obtain ⟨l⟩ := s
    show (l.map sanitizeChar).length = l.length
    simp
  · refine List.all_eq_true.mpr fun c hc => ?_
    simp only [cleanFileName, List.mem_map] at hc
    obtain ⟨a, -, rfl⟩ := hc
    exact allowedChar_sanitizeChar a

/-- C6: deleting an id not present in the catalog succeeds and leaves
the catalog unchanged (idempotent delete); an error is produced only
when the underlying delete call itself fails. -/
theorem deleteWebsite_missing_id_noop (docs : List (String × WebsiteDoc)) (websiteId : String)
    (h : ∀ d ∈ docs, d.1 ≠ websiteId) :
    (deleteWebsite none websiteId docs).result = Except.ok () ∧
    (deleteWebsite none websiteId docs).docs = docs ∧
    (∀ e : JsError, (deleteWebsite (some e) websiteId docs).result =
      Except.error (JsError.mk "Failed to delete website")) := by
  refine ⟨rfl, ?_, fun e => rfl⟩
  simp only [deleteWebsite]
  exact List.filter_eq_self.mpr fun d hd => by simpa using h d hd

theorem deleteWebsite_missing_id_noop_witness :
    (∀ d ∈ [("a", sampleDoc "A" 1)], d.1 ≠ "zzz") ∧
    ((deleteWebsite none "zzz" [("a", sampleDoc "A" 1)]).result = Except.ok () ∧
     (deleteWebsite none "zzz" [("a", sampleDoc "A" 1)]).docs = [("a", sampleDoc "A" 1)] ∧
     (∀ e : JsError, (deleteWebsite (some e) "zzz" [("a", sampleDoc "A" 1)]).result =
       Except.error (JsError.mk "Failed to delete website"))) :=
  ⟨by decide, deleteWebsite_missing_id_noop [("a", sampleDoc "A" 1)] "zzz" (by decide)⟩

/-- C7 (counterexample): the claim that list surfaces the original
document-store error verbatim fails: on an underlying error `boom`,
`getWebsites` throws the fresh generic error instead of `boom`. -/
theorem getWebsites_error_not_verbatim :
    ¬((getWebsites (some (JsError.mk "boom")) []).result =
      Except.error (JsError.mk "boom")) := by
  decide

/-- C7 (amended): on a document-store failure, create rethrows the
original error verbatim, while list and delete replace it with the fresh
generic errors `Failed to fetch websites` / `Failed to delete website`;
each of the three operations issues exactly one underlying store call,
so none retries. -/
theorem persistenceError_propagation (e : JsError) (w : WebsiteInput) (newId : String)
    (now : Nat) (docs : List (String × WebsiteDoc)) (websiteId : String) :
    (saveWebsite (some "k") (some "p") (some e) newId now w docs).result = Except.error e ∧
    (saveWebsite (some "k") (some "p") (some e) newId now w docs).calls = [StoreCall.addDoc] ∧
    (getWebsites (some e) docs).result = Except.error (JsError.mk "Failed to fetch websites") ∧
    (getWebsites (some e) docs).calls = [StoreCall.getDocsQuery] ∧
    (deleteWebsite (some e) websiteId docs).result = Except.error (JsError.mk "Failed to delete website") ∧
    (deleteWebsite (some e) websiteId docs).calls = [StoreCall.deleteDocById websiteId] :=
  ⟨rfl, rfl, rfl, rfl, rfl, rfl⟩

/-- C8: the entry assembled by `handleSubmit` has its category list
obtained by splitting the raw input on commas, trimming and dropping
empty segments (with `"portfolio, , blog ,"` yielding
`["portfolio", "blog"]`); a non-empty twitter/instagram handle expands
to the corresponding profile URL while an empty handle yields no such
field; and `otherTechnologies` / `videoUrl` are present only when
non-empty. -/
theorem assembleWebsiteData_spec (form : FormData) (vurl : Option String) :
    (assembleWebsiteData form vurl).categories =
      ((splitComma form.categories).map trimChars).filter (fun c => decide (0 < c.length)) ∧
    (assembleWebsiteData { form with categories := "portfolio, , blog ," } vurl).categories =
      ["portfolio", "blog"] ∧
    (assembleWebsiteData form vurl).twitter =
      (if form.twitter = "" then none else some ("https://twitter.com/" ++ form.twitter)) ∧
    (assembleWebsiteData form vurl).instagram =
      (if form.instagram = "" then none else some ("https://instagram.com/" ++ form.instagram)) ∧
    (assembleWebsiteData form vurl).otherTechnologies =
      (if form.otherTechnologies = "" then none else some form.otherTechnologies) ∧
    (assembleWebsiteData form none).videoUrl = none := by
  refine ⟨rfl, ?_, ?_, ?_, ?_, rfl⟩
  · show ((splitComma "portfolio, , blog ,").map trimChars).filter
        (fun c => decide (0 < c.length)) = ["portfolio", "blog"]
    decide
  · by_cases h : form.twitter = "" <;> simp [assembleWebsiteData, h]
  · by_cases h : form.instagram = "" <;> simp [assembleWebsiteData, h]
  · by_cases h : form.otherTechnologies = "" <;> simp [assembleWebsiteData, h]

set_option maxRecDepth 8000 in
/-- C9: when either checked environment variable is unset, `saveWebsite`
throws the configuration error before any insert (catalog unchanged, no
store call), and `handleSubmit` stops at its own configuration check
before any blob write or catalog write. -/
theorem missingConfig_blocks_writes (apiKey projectId : Option String)
    (h : apiKey = none ∨ projectId = none)
    (insertErr : Option JsError) (newId : String) (now : Nat) (w : WebsiteInput)
    (videoFile : Option String) (videoId : String) (uploadOk : Bool) (form : FormData)
    (docs : List (String × WebsiteDoc)) :
    (saveWebsite apiKey projectId insertErr newId now w docs).result =
      Except.error configMissingError ∧
    (saveWebsite apiKey projectId insertErr newId now w docs).docs = docs ∧
    (saveWebsite apiKey projectId insertErr newId now w docs).calls = [] ∧
    (handleSubmit apiKey projectId videoFile videoId uploadOk insertErr newId now form docs).blobOps = [] ∧
    (handleSubmit apiKey projectId videoFile videoId uploadOk insertErr newId now form docs).storeCalls = [] ∧
    (handleSubmit apiKey projectId videoFile videoId uploadOk insertErr newId now form docs).docs = docs := by
  rcases h with h | h <;> subst h <;> simp [saveWebsite, handleSubmit, truthyEnv]

theorem missingConfig_blocks_writes_witness :
    ((none : Option String) = none ∨ (some "p" : Option String) = none) ∧
    ((saveWebsite none (some "p") none "id1" 5 (assembleWebsiteData sampleForm none) []).result =
       Except.error configMissingError ∧
     (saveWebsite none (some "p") none "id1" 5 (assembleWebsiteData sampleForm none) []).docs = [] ∧
     (saveWebsite none (some "p") none "id1" 5 (assembleWebsiteData sampleForm none) []).calls = [] ∧
     (handleSubmit none (some "p") none "vid1" true none "id1" 5 sampleForm []).blobOps = [] ∧
     (handleSubmit none (some "p") none "vid1" true none "id1" 5 sampleForm []).storeCalls = [] ∧
     (handleSubmit none (some "p") none "vid1" true none "id1" 5 sampleForm []).docs = []) :=
  ⟨Or.inl rfl,
    missingConfig_blocks_writes none (some "p") (Or.inl rfl) none "id1" 5
      (assembleWebsiteData sampleForm none) none "vid1" true sampleForm []⟩

/-- C10: a listed entry's `id` is the stored data's own `id` field when
one exists and the store-assigned document identifier otherwise (the
data is spread after `id`); `saveWebsite` writes documents with no `id`
field in the data, so entries it produced always carry the document
identifier. -/
theorem getWebsites_id_assignment (docId : String) (doc : WebsiteDoc) (now : Nat)
    (w : WebsiteInput) (docs : List (String × WebsiteDoc)) :
    (docToEntry (docId, doc)).id = doc.idField.getD docId ∧
    (inputToDoc now w).idField = none ∧
    (getWebsites none docs).result = Except.ok ((orderByUploadedAtDesc docs).map docToEntry) ∧
    (docToEntry (docId, { doc with idField := none })).id = docId ∧
    (∀ v : String, (docToEntry (docId, { doc with idField := some v })).id = v) :=
  ⟨rfl, rfl, rfl, rfl, fun _ => rfl⟩

end Dashboard
